import Mathlib

/-!
Shallow embedding of the K_media client-side identity layer.

The definitions below are translated from the repository sources:
  - `static/js/user-id-patch.js` — identity resolver `getUserId` and the
    patched `window.fetch` / `XMLHttpRequest` interceptors;
  - the API client module (`ApiClient`, `ChatAPI`, `ApiUtils`) — header,
    query and body assembly, retry helper, file validation and image
    compression sizing;
  - `static/js/chat.js` — `ChatManager` identity state updates.

JavaScript strings are modelled as Lean `String`; string membership tests
(`includes`, `startsWith`) are implemented over the character list so that
they evaluate by kernel reduction.  `JSON.parse` / `JSON.stringify` are host
platform primitives, not code of this repository; a serialized JSON object
body is therefore modelled algebraically by the `BodyData.strObj` constructor
(the stringify image of a flat string-valued object) and `BodyData.strMalformed`
(a string on which `JSON.parse` throws).
-/

deriving instance DecidableEq for Except

namespace KMedia

/-- Predicate `leadMatch pat s` : `pat` is a prefix of `s` (character lists). -/
def leadMatch : List Char → List Char → Bool
  | [], _ => true
  | _ :: _, [] => false
  | a :: as, b :: bs => a == b && leadMatch as bs

/-- Predicate `hasSub pat s` : `pat` occurs as a contiguous substring of `s`. -/
def hasSub (pat : List Char) : List Char → Bool
  | [] => leadMatch pat []
  | c :: rest => leadMatch pat (c :: rest) || hasSub pat rest

/-- JavaScript `s.includes(pat)`. -/
def strIncludes (s pat : String) : Bool := hasSub pat.data s.data

/-- JavaScript `s.startsWith(pat)`. -/
def strStartsWith (s pat : String) : Bool := leadMatch pat.data s.data

/-- JavaScript truthiness of a string (`""` is falsy). -/
def truthyStr (s : String) : Bool := s != ""

/-- JavaScript truthiness of a nullable string (`null`/`""` falsy). -/
def truthyOpt : Option String → Bool
  | none => false
  | some s => truthyStr s

/-- Browser/host environment state visible to the identity code:
`tgUser` is `window.Telegram.WebApp.initDataUnsafe.user.id` (as a string)
when the host exposes an authenticated user; `inTelegram` is the module-load
flag `!!tg && !!tg.initData` of the `TelegramWebApp` wrapper; `stored` is
`localStorage['chat_user_id']`; `storageOk` tells whether
`localStorage.setItem` succeeds (it throws e.g. on quota exhaustion);
`now` is `Date.now()` and `rand` the `Math.random().toString(36).substring(2,15)`
draw at this instant. -/
structure Env where
  tgUser : Option String
  inTelegram : Bool
  stored : Option String
  storageOk : Bool
  now : Nat
  rand : String
deriving Repr, DecidableEq

/-- Fresh web identity token: `` `web_${timestamp}_${random}` ``. -/
def freshWebId (env : Env) : String :=
  "web_" ++ toString env.now ++ "_" ++ env.rand

/-- The resolver `window.getUserId` (user-id-patch.js lines 10–31).
Order: Telegram WebApp user, then `localStorage`, then generate-and-persist.
There is no try/catch in the source, so a `localStorage.setItem` failure
propagates as an exception (modelled as `Except.error`). The returned
environment carries the storage write. -/
def getUserId (env : Env) : Except String (String × Env) :=
  match env.tgUser with
  | some id => .ok ("tg_" ++ id, env)
  | none =>
    match env.stored with
    | some uid =>
      if uid != "" then .ok (uid, env)
      else
        if env.storageOk then
          .ok (freshWebId env, { env with stored := some (freshWebId env) })
        else .error "localStorage.setItem failed"
    | none =>
      if env.storageOk then
        .ok (freshWebId env, { env with stored := some (freshWebId env) })
      else .error "localStorage.setItem failed"

/-- Multipart `FormData` contents, in insertion order. -/
abbrev FormEntries := List (String × String)

/-- Browser `FormData.has(k)`. -/
def formHas (fd : FormEntries) (k : String) : Bool := fd.any (fun p => p.1 == k)

/-- Browser `FormData.append(k, v)`. -/
def formAppend (fd : FormEntries) (k v : String) : FormEntries := fd ++ [(k, v)]

/-- Flat JavaScript object with string-valued fields (the shape of every JSON
body this client builds). -/
abbrev JsObj := List (String × String)

/-- Property read `o[k]` (`undefined` = `none`). -/
def objGet (o : JsObj) (k : String) : Option String :=
  (o.find? (fun p => p.1 == k)).map Prod.snd

/-- Truthiness of `o[k]` (absent or `""` is falsy). -/
def objTruthy (o : JsObj) (k : String) : Bool := truthyOpt (objGet o k)

/-- Property assignment `o[k] = v`: overwrite in place if the key exists,
otherwise insert at the end (JavaScript property order). -/
def objSet (o : JsObj) (k v : String) : JsObj :=
  if o.any (fun p => p.1 == k) then
    o.map (fun p => if p.1 == k then (k, v) else p)
  else o ++ [(k, v)]

/-- Number of entries with key `k`. -/
def countKey (l : List (String × String)) (k : String) : Nat :=
  (l.filter (fun p => p.1 == k)).length

/-- Request body as handed to `fetch` / `XMLHttpRequest.send`:
either absent, a `FormData` instance, or a string — the latter modelled as
`strObj o` (the `JSON.stringify` image of the flat object `o`, on which
`JSON.parse` returns `o`) or `strMalformed raw` (a string on which
`JSON.parse` throws). -/
inductive BodyData
  | empty
  | formData (fd : FormEntries)
  | strObj (o : JsObj)
  | strMalformed (raw : String)
deriving Repr, DecidableEq

/-- An outgoing HTTP request. The URL string the transport layer sees is
`Request.url` (path plus encoded query). -/
structure Request where
  path : String
  query : List (String × String)
  method : String
  headers : List (String × String)
  body : BodyData
deriving Repr, DecidableEq

/-- Browser `URLSearchParams(params).toString()` for the plain key/value params this
client uses (no characters needing percent-encoding). -/
def encodeQuery (ps : List (String × String)) : String :=
  String.intercalate "&" (ps.map (fun p => p.1 ++ "=" ++ p.2))

/-- Full URL string as passed to `fetch`. -/
def Request.url (r : Request) : String :=
  if r.query.isEmpty then r.path else r.path ++ "?" ++ encodeQuery r.query

/-- Header lookup (exact name match, as the patch does). -/
def headerGet (hs : List (String × String)) (k : String) : Option String :=
  (hs.find? (fun p => p.1 == k)).map Prod.snd

/-- The patched `window.fetch` (user-id-patch.js lines 35–62).
Returns the request forwarded to the original `fetch`, the environment after
any `getUserId` storage write, and whether a JSON parse error was logged
(`console.error` in the catch block).  An exception thrown by `getUserId`
propagates.  The request always proceeds otherwise: the wrapper ends with
`return originalFetch.call(this, url, options)`. -/
def patchedFetch (env : Env) (r : Request) : Except String (Request × Env × Bool) :=
  if strIncludes r.url "/api/chat" && r.method == "POST" then
    match r.body with
    | .formData fd =>
      if !(formHas fd "user_id") then
        match getUserId env with
        | .error e => .error e
        | .ok (uid, env') =>
          .ok ({ r with body := .formData (formAppend fd "user_id" uid) }, env', false)
      else .ok (r, env, false)
    | .strObj o =>
      if headerGet r.headers "Content-Type" == some "application/json" then
        if !(objTruthy o "user_id") then
          match getUserId env with
          | .error e => .error e
          | .ok (uid, env') =>
            .ok ({ r with body := .strObj (objSet o "user_id" uid) }, env', false)
        else .ok (r, env, false)
      else .ok (r, env, false)
    | .strMalformed _ =>
      if headerGet r.headers "Content-Type" == some "application/json" then
        .ok (r, env, true)
      else .ok (r, env, false)
    | .empty =>
      if headerGet r.headers "Content-Type" == some "application/json" then
        .ok (r, env, true)
      else .ok (r, env, false)
  else .ok (r, env, false)

/-- Method `ApiClient.getTelegramUserId`: consults the `TelegramWebApp` wrapper —
`isInTelegram()` (the flag captured at module load) and then
`getTelegramUser()`, which re-reads `tg.initDataUnsafe.user`. -/
def getTelegramUserId (env : Env) : Option String :=
  if env.inTelegram then env.tgUser else none

/-- Method `ApiClient.getUserHeaders`: the `X-Telegram-User-Id` header, present only when
a Telegram user id is available. -/
def getUserHeaders (env : Env) : List (String × String) :=
  match getTelegramUserId env with
  | some id => [("X-Telegram-User-Id", id)]
  | none => []

/-- Header assembly of `ApiClient.makeRequest`: user headers, plus
`Content-Type: application/json` when a body is present that is not
`FormData` (the call sites pass no overriding headers of their own). -/
def makeRequest (env : Env) (path : String) (query : List (String × String))
    (method : String) (body : BodyData) : Request :=
  let headers := getUserHeaders env
  let headers := match body with
    | .formData _ => headers
    | .empty => headers
    | _ => headers ++ [("Content-Type", "application/json")]
  { path := path, query := query, method := method, headers := headers, body := body }

/-- Method `ApiClient.get`: adds `telegram_user_id` to the query params when
available, then issues a GET through the (patched) `fetch`. -/
def apiGet (env : Env) (endpoint : String) (params : List (String × String)) :
    Except String (Request × Env × Bool) :=
  let params :=
    match getTelegramUserId env with
    | some id => objSet params "telegram_user_id" id
    | none => params
  patchedFetch env (makeRequest env endpoint params "GET" .empty)

/-- Method `ApiClient.post`: adds `telegram_user_id` to the JSON data when available,
serializes it, and issues a POST through the (patched) `fetch`. -/
def apiPost (env : Env) (endpoint : String) (data : JsObj) :
    Except String (Request × Env × Bool) :=
  let data :=
    match getTelegramUserId env with
    | some id => objSet data "telegram_user_id" id
    | none => data
  patchedFetch env (makeRequest env endpoint [] "POST" (.strObj data))

/-- Method `ApiClient.postFormData`: appends `telegram_user_id` to the `FormData`
when available and issues a POST through the (patched) `fetch`. -/
def apiPostFormData (env : Env) (endpoint : String) (fd : FormEntries) :
    Except String (Request × Env × Bool) :=
  let fd :=
    match getTelegramUserId env with
    | some id => formAppend fd "telegram_user_id" id
    | none => fd
  patchedFetch env (makeRequest env endpoint [] "POST" (.formData fd))

/-- Method `ChatAPI.sendMessage`: multipart body with optional `message` and `image`
entries, posted to `/api/chat`. -/
def sendMessageRequest (env : Env) (message : String) (image : Option String) :
    Except String (Request × Env × Bool) :=
  let fd : FormEntries :=
    (if truthyStr message then [("message", message)] else []) ++
    (match image with
     | some img => [("image", img)]
     | none => [])
  apiPostFormData env "/api/chat" fd

/-- Method `ChatAPI.clearHistory`: posts empty JSON to the clear endpoint. -/
def clearHistoryRequest (env : Env) : Except String (Request × Env × Bool) :=
  apiPost env "/api/chat/clear" []

/-- Method `ChatAPI.getHistory`: a GET of the history endpoint with a limit param. -/
def historyRequest (env : Env) (limit : Nat) : Except String (Request × Env × Bool) :=
  apiGet env "/api/chat/history" [("limit", toString limit)]

/-- Identity values carried in the header channel of a request. -/
def headerIdCount (r : Request) : Nat := countKey r.headers "X-Telegram-User-Id"

/-- Identity values carried in the query channel of a request. -/
def queryIdCount (r : Request) : Nat := countKey r.query "telegram_user_id"

/-- Identity values carried in the body channel (`user_id` plus
`telegram_user_id` fields of a multipart or JSON body). -/
def bodyIdCount : BodyData → Nat
  | .formData fd => countKey fd "user_id" + countKey fd "telegram_user_id"
  | .strObj o => countKey o "user_id" + countKey o "telegram_user_id"
  | _ => 0

/-- Total number of identity values attached to a request, over all three
channels. -/
def identityTotal (r : Request) : Nat :=
  headerIdCount r + queryIdCount r + bodyIdCount r.body

/-- Total identity count of the request produced by a pipeline, `none` when
the pipeline threw. -/
def totalIdOf (x : Except String (Request × Env × Bool)) : Option Nat :=
  match x with
  | .ok (r, _, _) => some (identityTotal r)
  | .error _ => none

/-- Number of `user_id` fields carried in the body. -/
def bodyUserCount : BodyData → Nat
  | .formData fd => countKey fd "user_id"
  | .strObj o => countKey o "user_id"
  | _ => 0

/-- Number of `telegram_user_id` fields carried in the body. -/
def bodyTgCount : BodyData → Nat
  | .formData fd => countKey fd "telegram_user_id"
  | .strObj o => countKey o "telegram_user_id"
  | _ => 0

/-- The three channel counts (header, query, body) of the produced request,
`none` when the pipeline threw. -/
def channelsOf (x : Except String (Request × Env × Bool)) :
    Option (Nat × Nat × Nat) :=
  match x with
  | .ok (r, _, _) => some (headerIdCount r, queryIdCount r, bodyIdCount r.body)
  | .error _ => none

/-- Bool check: each identity channel of the produced request carries at most
one identity value (vacuously true when the pipeline threw). -/
def atMostOncePerChannel (x : Except String (Request × Env × Bool)) : Bool :=
  match x with
  | .ok (r, _, _) =>
    decide (headerIdCount r ≤ 1) && decide (queryIdCount r ≤ 1) &&
    decide (bodyUserCount r.body ≤ 1) && decide (bodyTgCount r.body ≤ 1)
  | .error _ => true

/-- State of an `XMLHttpRequest` as the patch sees it: the `_url` recorded by
the patched `open`. The method is kept only to state properties about it —
the patch itself never records or consults it. -/
structure XhrState where
  openedUrl : Option String
  openedMethod : Option String
deriving Repr, DecidableEq

/-- The patched `XMLHttpRequest.prototype.open` (user-id-patch.js lines
76–80): records the target URL in `_url`. -/
def xhrOpen (_st : XhrState) (method url : String) : XhrState :=
  { openedUrl := some url, openedMethod := some method }

/-- The patched `XMLHttpRequest.prototype.send` (user-id-patch.js lines
65–74): if `_url` is truthy and contains `/api/chat`, and the body is a
`FormData` without `user_id`, appends the resolved identity.  Note the source
checks only the URL — not the request method. -/
def xhrSend (env : Env) (st : XhrState) (body : BodyData) :
    Except String (BodyData × Env) :=
  match st.openedUrl with
  | some u =>
    if truthyStr u && strIncludes u "/api/chat" then
      match body with
      | .formData fd =>
        if !(formHas fd "user_id") then
          match getUserId env with
          | .error e => .error e
          | .ok (uid, env') => .ok (.formData (formAppend fd "user_id" uid), env')
        else .ok (body, env)
      | _ => .ok (body, env)
    else .ok (body, env)
  | none => .ok (body, env)

/-- Observable outcome of `ApiUtils.retryRequest`: the value returned or
exception thrown (`none` models the `undefined` returned when the loop body
never runs, i.e. `maxRetries = 0`), the waits performed between attempts, and
how many times the request function was called. -/
structure RetryTrace (α : Type) where
  result : Option (Except String α)
  waits : List Nat
  calls : Nat
deriving Repr

/-- Loop body of `ApiUtils.retryRequest`, from attempt number `attempt` with
`fuel` attempts remaining (`fuel = maxRetries - attempt + 1`).  `f k` is the
outcome of the `k`-th call of the request function. -/
def retryFrom (f : Nat → Except String α) (delay : Nat) :
    Nat → Nat → RetryTrace α
  | _, 0 => { result := none, waits := [], calls := 0 }
  | attempt, fuel + 1 =>
    match f attempt with
    | .ok a => { result := some (.ok a), waits := [], calls := 1 }
    | .error e =>
      if fuel = 0 then { result := some (.error e), waits := [], calls := 1 }
      else
        let rest := retryFrom f delay (attempt + 1) fuel
        { result := rest.result, waits := delay * 2 ^ (attempt - 1) :: rest.waits,
          calls := rest.calls + 1 }

/-- Helper `ApiUtils.retryRequest(requestFunction, maxRetries = 3, delay = 1000)`
(part_000 lines 354–371): attempts 1..maxRetries; on failure of attempt
`k < maxRetries`, waits `delay * 2^(k-1)` and retries; the failure of attempt
`maxRetries` is rethrown; a success is returned immediately. -/
def retryRequest (f : Nat → Except String α) (maxRetries delay : Nat) : RetryTrace α :=
  retryFrom f delay 1 maxRetries

/-- A browser `File` as far as the validation/compression code reads it. -/
structure JsFile where
  name : String
  type : String
  size : Nat
deriving Repr, DecidableEq

/-- Validator `ApiUtils.validateFileSize(file, maxSizeMB = 50)`: throws when
`file.size > maxSizeMB * 1024 * 1024`. -/
def validateFileSize (file : JsFile) (maxSizeMB : Nat) : Except String Bool :=
  if file.size > maxSizeMB * 1024 * 1024 then
    .error ("Файл слишком большой. Максимальный размер: " ++ toString maxSizeMB ++ "MB")
  else .ok true

/-- The allowed MIME types of `ApiUtils.validateFileType`. -/
def allowedTypes : List String :=
  ["image/jpeg", "image/png", "image/webp", "image/heic", "image/heif"]

/-- Validator `ApiUtils.validateFileType(file)`: throws when `file.type` is not in the
allowed list. -/
def validateFileType (file : JsFile) : Except String Bool :=
  if allowedTypes.contains file.type then .ok true
  else .error "Неподдерживаемый тип файла."

/-- Pipeline `ApiUtils.prepareImageFile(file)` (part_000 lines 474–500): validate type,
validate size against 50MB, then recompress only when larger than 2MB.  The
canvas re-encoding itself is a browser primitive, passed in as `compress`. -/
def prepareImageFile (compress : JsFile → JsFile) (file : JsFile) :
    Except String JsFile :=
  match validateFileType file with
  | .error e => .error e
  | .ok _ =>
    match validateFileSize file 50 with
    | .error e => .error e
    | .ok _ =>
      if file.size > 2 * 1024 * 1024 then .ok (compress file) else .ok file

/-- Dimension computation of `ApiUtils.compressImage` (part_000 lines
406–419), in exact arithmetic: cap the longest edge at 1200, scaling the
other edge proportionally. -/
def compressDims (w h : ℚ) : ℚ × ℚ :=
  if w > 1200 ∨ h > 1200 then
    if w > h then (1200, h * 1200 / w)
    else (w * 1200 / h, 1200)
  else (w, h)

/-- Result of `ChatManager.handleImageSelect` on the state it owns: the
pending image (`currentImage`), and whether a user-visible alert was raised.
On failure the preview is hidden and `currentImage` is left untouched. -/
structure SelectResult where
  currentImage : Option JsFile
  alertShown : Bool
  previewShown : Bool
deriving Repr, DecidableEq

/-- Handler `ChatManager.handleImageSelect` (chat.js lines 650–749), reduced to its
state effects: reject non-`image/*` declared types with an alert; otherwise
run `prepareImageFile`, storing the processed file on success and alerting on
failure.  The function performs no network call in either branch. -/
def handleImageSelect (compress : JsFile → JsFile) (prevImage : Option JsFile)
    (file : JsFile) : SelectResult :=
  if !(strStartsWith file.type "image/") then
    { currentImage := prevImage, alertShown := true, previewShown := false }
  else
    match prepareImageFile compress file with
    | .ok processed =>
      { currentImage := some processed, alertShown := false, previewShown := true }
    | .error _ =>
      { currentImage := prevImage, alertShown := true, previewShown := false }

/-- Chat-manager state relevant to identity handling (chat.js globals plus
`ChatManager` fields). -/
structure ChatState where
  currentUserId : Option String
  isHistoryLoaded : Bool
deriving Repr, DecidableEq

/-- Method `ChatManager.updateUserId` (chat.js lines 50–68): inside Telegram with a
user, adopt `tg_<id>` (resetting the history-loaded flag when it changes);
outside Telegram, create a `web_session_<timestamp>` id only when none is
set. -/
def updateUserId (env : Env) (st : ChatState) : ChatState :=
  if env.inTelegram then
    match env.tgUser with
    | some id =>
      let newUserId := "tg_" ++ id
      if st.currentUserId != some newUserId then
        { currentUserId := some newUserId, isHistoryLoaded := false }
      else st
    | none => st
  else
    if !(truthyOpt st.currentUserId) then
      { st with currentUserId := some ("web_session_" ++ toString env.now) }
    else st

/-- Server response shape shared by the send and history endpoints, as read
by chat.js (`success`, optional `user_id`). -/
structure ApiChatResponse where
  success : Bool
  userId : Option String
deriving Repr, DecidableEq

/-- Identity effect of `ChatManager.loadChatHistory` (chat.js lines 135–140
and 187): on `success`, a truthy `data.user_id` overwrites the local id, and
the history-loaded flag is set. -/
def applyHistoryResponse (st : ChatState) (data : ApiChatResponse) : ChatState :=
  if data.success then
    let st :=
      if truthyOpt data.userId then { st with currentUserId := data.userId } else st
    { st with isHistoryLoaded := true }
  else st

/-- Identity effect of `ChatManager.sendMessage` (chat.js lines 331–336): on
`success`, a truthy `data.user_id` overwrites the local id. -/
def applySendResponse (st : ChatState) (data : ApiChatResponse) : ChatState :=
  if data.success then
    if truthyOpt data.userId then { st with currentUserId := data.userId } else st
  else st

/-- Per-call input of one `getUserId` resolution: the Telegram user visible
at that instant and the clock/randomness draws. -/
structure CallInput where
  tgUser : Option String
  now : Nat
  rand : String
deriving Repr, DecidableEq

/-- Environment of one resolution call, given the threaded storage state. -/
def callEnv (c : CallInput) (stored : Option String) (storageOk : Bool) : Env :=
  { tgUser := c.tgUser, inTelegram := c.tgUser.isSome, stored := stored,
    storageOk := storageOk, now := c.now, rand := c.rand }

/-- A sequence of `getUserId` calls within one session, threading the
`localStorage` state from call to call (a thrown call writes nothing). -/
def runResolutions (storageOk : Bool) :
    List CallInput → Option String → List (Except String String)
  | [], _ => []
  | c :: cs, stored =>
    match getUserId (callEnv c stored storageOk) with
    | .ok (uid, env') => .ok uid :: runResolutions storageOk cs env'.stored
    | .error e => .error e :: runResolutions storageOk cs stored

/-! Sample environments and requests, used by the concrete witness and
counterexample theorems below. -/

/-- A session inside Telegram: authenticated user `555`, empty storage. -/
def envT : Env := ⟨some "555", true, none, true, 0, "r"⟩

/-- A standalone-browser session with a persisted web identity. -/
def envW : Env := ⟨none, false, some "web_1_ab", true, 5, "zz"⟩

/-- A standalone-browser session with empty storage whose
`localStorage.setItem` fails. -/
def envFail : Env := ⟨none, false, none, false, 7, "q"⟩

/-- A chat-clear style JSON POST request with a body `JSON.parse` rejects. -/
def rMal : Request :=
  { path := "/api/chat/clear", query := [], method := "POST",
    headers := [("Content-Type", "application/json")], body := .strMalformed "xx" }

/-- A chat multipart POST request whose body already carries `user_id`. -/
def rFormDup : Request :=
  { path := "/api/chat", query := [], method := "POST",
    headers := [], body := .formData [("message", "hi"), ("user_id", "u9")] }

/-- A chat multipart POST request without `user_id`. -/
def rForm : Request :=
  { path := "/api/chat", query := [], method := "POST",
    headers := [], body := .formData [("message", "hi")] }

/-- A chat JSON POST request without `user_id`. -/
def rJson : Request :=
  { path := "/api/chat/clear", query := [], method := "POST",
    headers := [("Content-Type", "application/json")], body := .strObj [] }

/-! Shared lemmas. -/

theorem string_append_ne_empty (s t : String) (hs : s.data ≠ []) : s ++ t ≠ "" := by
  intro h
  have hd := congrArg String.data h
  rw [String.data_append] at hd
  have hnil : s.data = [] ∧ t.data = [] := List.append_eq_nil.mp (by simpa using hd)
  exact hs hnil.1

theorem getUserId_ok_ne_empty (env env' : Env) (uid : String)
    (h : getUserId env = .ok (uid, env')) : uid ≠ "" := by
  obtain ⟨tg, itg, st, sok, n, rd⟩ := env
  cases tg with
  | some id =>
    simp only [getUserId, Except.ok.injEq, Prod.mk.injEq] at h
    rw [← h.1]
    exact string_append_ne_empty "tg_" _ (by decide)
  | none =>
    cases st with
    | none =>
      cases sok with
      | true =>
        simp only [getUserId, if_true, Except.ok.injEq, Prod.mk.injEq] at h
        rw [← h.1]
        exact string_append_ne_empty "web_" _ (by decide)
      | false => simp [getUserId] at h
    | some s =>
      by_cases htr : (s != "") = true
      · simp only [getUserId, htr, if_true, Except.ok.injEq, Prod.mk.injEq] at h
        rw [← h.1]
        exact bne_iff_ne.mp htr
      · have htr' : (s != "") = false := by simpa using htr
        cases sok with
        | true =>
          simp only [getUserId, htr', Bool.false_eq_true, if_false, if_true,
            Except.ok.injEq, Prod.mk.injEq] at h
          rw [← h.1]
          exact string_append_ne_empty "web_" _ (by decide)
        | false => simp [getUserId, htr'] at h

theorem countKey_append (a b : List (String × String)) (k : String) :
    countKey (a ++ b) k = countKey a k + countKey b k := by
  simp [countKey, List.filter_append]

theorem countKey_zero_iff (l : List (String × String)) (k : String) :
    countKey l k = 0 ↔ ∀ p ∈ l, (p.1 == k) = false := by
  simp [countKey, List.length_eq_zero, List.filter_eq_nil_iff, Bool.not_eq_true]

theorem formHas_eq_false_iff (fd : FormEntries) (k : String) :
    formHas fd k = false ↔ ∀ p ∈ fd, (p.1 == k) = false := by
  simp [formHas, List.any_eq_false, Bool.not_eq_true]

theorem formHas_append_self (fd : FormEntries) (k v : String) :
    formHas (formAppend fd k v) k = true := by
  simp [formAppend, formHas]

theorem objGet_eq_none_iff (o : JsObj) (k : String) :
    objGet o k = none ↔ ∀ p ∈ o, (p.1 == k) = false := by
  simp [objGet, List.find?_eq_none, Bool.not_eq_true]

theorem objSet_absent (o : JsObj) (k v : String) (h : objGet o k = none) :
    objSet o k v = o ++ [(k, v)] := by
  have hall := (objGet_eq_none_iff o k).mp h
  have hany : o.any (fun p => p.1 == k) = false := by
    rw [List.any_eq_false]
    intro p hp
    simp [hall p hp]
  simp [objSet, hany]

theorem objGet_append_single (o : JsObj) (k v : String)
    (h : ∀ p ∈ o, (p.1 == k) = false) :
    objGet (o ++ [(k, v)]) k = some v := by
  induction o with
  | nil => simp [objGet]
  | cons p o ih =>
    have hp : (p.1 == k) = false := h p (by simp)
    have ho : ∀ q ∈ o, (q.1 == k) = false := fun q hq => h q (by simp [hq])
    simp only [List.cons_append, objGet, List.find?]
    rw [hp]
    exact ih ho

theorem objGet_objSet_absent (o : JsObj) (k v : String) (h : objGet o k = none) :
    objGet (objSet o k v) k = some v := by
  rw [objSet_absent o k v h]
  exact objGet_append_single o k v ((objGet_eq_none_iff o k).mp h)

theorem countKey_objSet_absent (o : JsObj) (k v : String) (h : objGet o k = none) :
    countKey (objSet o k v) k = 1 := by
  rw [objSet_absent o k v h, countKey_append]
  have h0 : countKey o k = 0 :=
    (countKey_zero_iff o k).mpr ((objGet_eq_none_iff o k).mp h)
  rw [h0]
  simp [countKey, List.filter]

theorem objTruthy_objSet_absent (o : JsObj) (k v : String) (h : objGet o k = none) :
    objTruthy (objSet o k v) k = truthyStr v := by
  rw [objTruthy, objGet_objSet_absent o k v h]
  rfl

theorem objGet_map_replace (o : JsObj) (k v : String)
    (h : o.any (fun p => p.1 == k) = true) :
    objGet (o.map (fun p => if p.1 == k then (k, v) else p)) k = some v := by
  induction o with
  | nil => simp at h
  | cons p o ih =>
    by_cases hp : (p.1 == k) = true
    · simp only [List.map_cons, hp, if_true, objGet, List.find?]
      rw [show (((k, v) : String × String).1 == k) = true from beq_self_eq_true k]
      rfl
    · have hp' : (p.1 == k) = false := by simpa using hp
      have ho : o.any (fun p => p.1 == k) = true := by
        rcases List.any_eq_true.mp h with ⟨q, hq, hqk⟩
        rcases List.mem_cons.mp hq with rfl | hq'
        · exact absurd hqk (by simp [hp'])
        · exact List.any_eq_true.mpr ⟨q, hq', hqk⟩
      have hstep : objGet ((p :: o).map (fun p => if p.1 == k then (k, v) else p)) k =
          objGet (o.map (fun p => if p.1 == k then (k, v) else p)) k := by
        simp [objGet, List.find?, hp']
      rw [hstep]
      exact ih ho

theorem objGet_objSet (o : JsObj) (k v : String) :
    objGet (objSet o k v) k = some v := by
  by_cases hany : o.any (fun p => p.1 == k) = true
  · rw [objSet, if_pos hany]
    exact objGet_map_replace o k v hany
  · have hany' : o.any (fun p => p.1 == k) = false := Bool.eq_false_iff.mpr hany
    rw [objSet, if_neg (by rw [hany']; exact Bool.false_ne_true)]
    apply objGet_append_single
    intro p hp
    have hnp := List.any_eq_false.mp hany' p hp
    simpa using hnp

theorem objTruthy_objSet (o : JsObj) (k v : String) :
    objTruthy (objSet o k v) k = truthyStr v := by
  rw [objTruthy, objGet_objSet]
  rfl

/-! Claim theorems. -/

/-- C2, counterexample: the claim says `getUserId` never fails, degrading
silently when the durable-storage write fails.  In the source there is no
try/catch around `localStorage.setItem`, so in a web session with empty
storage whose storage write fails, `getUserId` throws instead of returning a
token. -/
theorem C2_counterexample : (getUserId envFail).isOk = false := by decide

/-- C2 (amended): `getUserId` returns an identity token whenever a Telegram
user is available, or a truthy stored identity exists, or the storage write
succeeds; only a failing `localStorage.setItem` during generation makes it
throw (the exception propagates — it does not degrade to returning the fresh
token). -/
theorem C2_getUserId_total_unless_storage_fails (env : Env)
    (h : env.tgUser.isSome = true ∨ truthyOpt env.stored = true ∨
      env.storageOk = true) :
    (getUserId env).isOk = true := by
  obtain ⟨tg, itg, st, sok, n, rd⟩ := env
  cases tg with
  | some id => simp [getUserId, Except.isOk, Except.toBool]
  | none =>
    cases st with
    | none =>
      rcases h with h | h | h
      · simp at h
      · simp [truthyOpt] at h
      · simp only at h
        simp [getUserId, h, Except.isOk, Except.toBool]
    | some s =>
      by_cases htr : (s != "") = true
      · simp [getUserId, htr, Except.isOk, Except.toBool]
      · have htr' : (s != "") = false := by simpa using htr
        rcases h with h | h | h
        · simp at h
        · rw [show truthyOpt (some s) = (s != "") from rfl, htr'] at h
          exact absurd h (by simp)
        · simp only at h
          simp [getUserId, htr', h, Except.isOk, Except.toBool]

/-- C2 witness: a web session with empty but working storage resolves
successfully. -/
theorem C2_witness :
    (envW.tgUser.isSome = true ∨ truthyOpt envW.stored = true ∨
      envW.storageOk = true) ∧ (getUserId envW).isOk = true :=
  ⟨Or.inr (Or.inl (by decide)),
   C2_getUserId_total_unless_storage_fails envW (Or.inr (Or.inl (by decide)))⟩

/-- C6: for a chat-endpoint POST whose JSON body fails to parse, the patched
`fetch` forwards the original request unchanged, logs the parse error, and
the request still proceeds to the original `fetch`. -/
theorem C6_malformed_json_forwarded (env : Env) (r : Request) (raw : String)
    (hurl : strIncludes r.url "/api/chat" = true) (hm : r.method = "POST")
    (hct : headerGet r.headers "Content-Type" = some "application/json")
    (hb : r.body = .strMalformed raw) :
    patchedFetch env r = .ok (r, env, true) := by
  unfold patchedFetch
  rw [hb, hurl, hm]
  simp [hct]

/-- C6 witness: the concrete malformed-body chat-clear request is forwarded
unchanged with the parse error logged. -/
theorem C6_witness :
    (strIncludes rMal.url "/api/chat" = true ∧ rMal.method = "POST" ∧
      headerGet rMal.headers "Content-Type" = some "application/json" ∧
      rMal.body = .strMalformed "xx") ∧
    patchedFetch envW rMal = .ok (rMal, envW, true) :=
  ⟨⟨by decide, rfl, by decide, rfl⟩,
   C6_malformed_json_forwarded envW rMal "xx" (by decide) rfl (by decide) rfl⟩

/-- C8: the `compressImage` dimension computation caps the longest edge at
1200 while preserving the aspect ratio exactly (in the exact arithmetic of
the source expressions), hence with deviation 0 percent, less than 1. -/
theorem C8_compress_dims (w h : ℚ) (hw : 0 < w) (hh : 0 < h)
    (hbig : 1200 < max w h) :
    max (compressDims w h).1 (compressDims w h).2 ≤ 1200 ∧
    0 < (compressDims w h).2 ∧
    (compressDims w h).1 / (compressDims w h).2 = w / h := by
  have hcond : w > 1200 ∨ h > 1200 := by
    rcases lt_max_iff.mp hbig with h1 | h1
    · exact Or.inl h1
    · exact Or.inr h1
  unfold compressDims
  rw [if_pos hcond]
  have hw' : w ≠ 0 := ne_of_gt hw
  have hh' : h ≠ 0 := ne_of_gt hh
  by_cases hwh : w > h
  · rw [if_pos hwh]
    dsimp only
    refine ⟨?_, ?_, ?_⟩
    · apply max_le le_rfl
      rw [div_le_iff₀ hw]
      nlinarith
    · positivity
    · field_simp
      ring
  · rw [if_neg hwh]
    dsimp only
    refine ⟨?_, by norm_num, ?_⟩
    · apply max_le ?_ le_rfl
      rw [div_le_iff₀ hh]
      nlinarith [le_of_not_lt hwh]
    · field_simp
      ring

/-- C8 witness: the 4000×2000 image of the spec scenario is resized to
1200×600 — longest edge 1200, aspect ratio exactly preserved. -/
theorem C8_witness :
    ((0:ℚ) < 4000 ∧ (0:ℚ) < 2000 ∧ (1200:ℚ) < max 4000 2000) ∧
    (max (compressDims 4000 2000).1 (compressDims 4000 2000).2 ≤ 1200 ∧
      0 < (compressDims 4000 2000).2 ∧
      (compressDims 4000 2000).1 / (compressDims 4000 2000).2 = (4000:ℚ) / 2000) :=
  ⟨⟨by norm_num, by norm_num, by norm_num⟩,
   C8_compress_dims 4000 2000 (by norm_num) (by norm_num) (by norm_num)⟩

/-- C9: a file declared `application/pdf`, or one larger than 50MB, is
rejected by the image-preparation path: `prepareImageFile` throws, and
`handleImageSelect` raises a user-visible alert while leaving the pending
image unchanged — the rejected file is never stored for upload, and neither
function performs any network operation (uploads happen only later, in
`sendMessage`, from the stored pending image). -/
theorem C9_invalid_file_rejected (compress : JsFile → JsFile)
    (prev : Option JsFile) (file : JsFile)
    (h : file.type = "application/pdf" ∨ 50 * 1024 * 1024 < file.size) :
    (prepareImageFile compress file).isOk = false ∧
    handleImageSelect compress prev file =
      { currentImage := prev, alertShown := true, previewShown := false } := by
  have hprep : (prepareImageFile compress file).isOk = false := by
    rcases h with htype | hsize
    · have hvt : validateFileType file = .error "Неподдерживаемый тип файла." := by
        unfold validateFileType
        rw [htype]
        simp [allowedTypes]
      simp [prepareImageFile, hvt, Except.isOk, Except.toBool]
    · rcases hvt : validateFileType file with e | b
      · simp [prepareImageFile, hvt, Except.isOk, Except.toBool]
      · have hvs : validateFileSize file 50 =
            .error ("Файл слишком большой. Максимальный размер: " ++ toString 50 ++ "MB") := by
          unfold validateFileSize
          rw [if_pos hsize]
        simp [prepareImageFile, hvt, hvs, Except.isOk, Except.toBool]
  refine ⟨hprep, ?_⟩
  by_cases hsw : strStartsWith file.type "image/" = true
  · rcases hp : prepareImageFile compress file with e | v
    · simp [handleImageSelect, hsw, hp]
    · rw [hp] at hprep
      simp [Except.isOk, Except.toBool] at hprep
  · have hsw' : strStartsWith file.type "image/" = false := by simpa using hsw
    simp [handleImageSelect, hsw']

/-- C9 witness: a PDF file is rejected with an alert and no pending image. -/
theorem C9_witness :
    ((⟨"doc.pdf", "application/pdf", 100⟩ : JsFile).type = "application/pdf" ∨
      50 * 1024 * 1024 < (⟨"doc.pdf", "application/pdf", 100⟩ : JsFile).size) ∧
    ((prepareImageFile id ⟨"doc.pdf", "application/pdf", 100⟩).isOk = false ∧
      handleImageSelect id none ⟨"doc.pdf", "application/pdf", 100⟩ =
        { currentImage := none, alertShown := true, previewShown := false }) :=
  ⟨Or.inl rfl, C9_invalid_file_rejected id none ⟨"doc.pdf", "application/pdf", 100⟩ (Or.inl rfl)⟩

/-- C10 (implicit claim): when a successful send or history-load response
carries a (truthy) `user_id`, the Chat Manager overwrites its local identity
with the server-echoed value, whatever it was locally. -/
theorem C10_server_echo_overwrites (st : ChatState) (data : ApiChatResponse)
    (u : String) (hs : data.success = true) (hu : data.userId = some u)
    (hne : u ≠ "") :
    (applyHistoryResponse st data).currentUserId = some u ∧
    (applySendResponse st data).currentUserId = some u := by
  have htr : truthyOpt (some u) = true := by
    simp only [truthyOpt, truthyStr]
    exact bne_iff_ne.mpr hne
  constructor
  · simp [applyHistoryResponse, hs, hu, htr]
  · simp [applySendResponse, hs, hu, htr]

/-- C10 witness: a server echo `tg_777` replaces a local `web_session_1`. -/
theorem C10_witness :
    ((⟨true, some "tg_777"⟩ : ApiChatResponse).success = true ∧
      (⟨true, some "tg_777"⟩ : ApiChatResponse).userId = some "tg_777" ∧
      "tg_777" ≠ "") ∧
    ((applyHistoryResponse ⟨some "web_session_1", false⟩ ⟨true, some "tg_777"⟩).currentUserId =
        some "tg_777" ∧
      (applySendResponse ⟨some "web_session_1", false⟩ ⟨true, some "tg_777"⟩).currentUserId =
        some "tg_777") :=
  ⟨⟨rfl, rfl, by decide⟩,
   C10_server_echo_overwrites ⟨some "web_session_1", false⟩ ⟨true, some "tg_777"⟩
     "tg_777" rfl rfl (by decide)⟩

theorem url_set_body (r : Request) (b : BodyData) :
    ({ r with body := b } : Request).url = r.url := rfl

/-- C5: identity injection is at-most-once and idempotent.
(1) A chat-endpoint multipart POST whose body already has a `user_id` entry
is forwarded unchanged — no second entry is added.
(2) For a JSON body without a truthy `user_id` and resolved identity `uid`,
the output body deserializes to an object whose `user_id` is `uid`; if the
field was absent it now occurs exactly once; and running the injector again
on the output changes nothing.
(3) For a multipart body without `user_id`, the injector appends exactly one
`user_id` entry and running it again on the output changes nothing. -/
theorem C5_injection_at_most_once_idempotent :
    (∀ (env : Env) (r : Request) (fd : FormEntries),
      strIncludes r.url "/api/chat" = true → r.method = "POST" →
      r.body = .formData fd → formHas fd "user_id" = true →
      patchedFetch env r = .ok (r, env, false)) ∧
    (∀ (env env' : Env) (r : Request) (o : JsObj) (uid : String),
      strIncludes r.url "/api/chat" = true → r.method = "POST" →
      headerGet r.headers "Content-Type" = some "application/json" →
      r.body = .strObj o → objTruthy o "user_id" = false →
      getUserId env = .ok (uid, env') →
      patchedFetch env r =
        .ok ({ r with body := .strObj (objSet o "user_id" uid) }, env', false) ∧
      objGet (objSet o "user_id" uid) "user_id" = some uid ∧
      (objGet o "user_id" = none →
        countKey (objSet o "user_id" uid) "user_id" = 1) ∧
      patchedFetch env' { r with body := .strObj (objSet o "user_id" uid) } =
        .ok ({ r with body := .strObj (objSet o "user_id" uid) }, env', false)) ∧
    (∀ (env env' : Env) (r : Request) (fd : FormEntries) (uid : String),
      strIncludes r.url "/api/chat" = true → r.method = "POST" →
      r.body = .formData fd → formHas fd "user_id" = false →
      getUserId env = .ok (uid, env') →
      patchedFetch env r =
        .ok ({ r with body := .formData (formAppend fd "user_id" uid) }, env', false) ∧
      countKey (formAppend fd "user_id" uid) "user_id" = 1 ∧
      patchedFetch env' { r with body := .formData (formAppend fd "user_id" uid) } =
        .ok ({ r with body := .formData (formAppend fd "user_id" uid) }, env', false)) := by
  refine ⟨?_, ?_, ?_⟩
  · intro env r fd hurl hm hb hhas
    unfold patchedFetch
    rw [hb, hurl, hm]
    simp [hhas]
  · intro env env' r o uid hurl hm hct hb hnt hg
    have hne : uid ≠ "" := getUserId_ok_ne_empty env env' uid hg
    refine ⟨?_, objGet_objSet o "user_id" uid, countKey_objSet_absent o "user_id" uid, ?_⟩
    · unfold patchedFetch
      rw [hb, hurl, hm]
      simp [hct, hnt, hg]
    · unfold patchedFetch
      rw [url_set_body, hurl]
      have hm' : ({ r with body := .strObj (objSet o "user_id" uid) } : Request).method =
          "POST" := hm
      rw [hm']
      have htr : objTruthy (objSet o "user_id" uid) "user_id" = true := by
        rw [objTruthy_objSet]
        simp only [truthyStr]
        exact bne_iff_ne.mpr hne
      simp [hct, htr]
  · intro env env' r fd uid hurl hm hb hhas hg
    have hcount : countKey fd "user_id" = 0 :=
      (countKey_zero_iff fd "user_id").mpr ((formHas_eq_false_iff fd "user_id").mp hhas)
    refine ⟨?_, ?_, ?_⟩
    · unfold patchedFetch
      rw [hb, hurl, hm]
      simp [hhas, hg]
    · rw [formAppend, countKey_append, hcount]
      simp [countKey, List.filter]
    · unfold patchedFetch
      rw [url_set_body, hurl]
      have hm' : ({ r with body := .formData (formAppend fd "user_id" uid) } : Request).method =
          "POST" := hm
      rw [hm']
      simp [formHas_append_self]

/-- C5 witness: concrete instances of all three parts — a duplicate-carrying
multipart body left alone, a JSON `{}` body gaining exactly one `user_id`
equal to the resolved identity, and both injections being idempotent. -/
theorem C5_witness :
    (patchedFetch envW rFormDup = .ok (rFormDup, envW, false)) ∧
    (patchedFetch envW rJson =
        .ok ({ rJson with body := .strObj (objSet [] "user_id" "web_1_ab") }, envW, false) ∧
      objGet (objSet [] "user_id" "web_1_ab") "user_id" = some "web_1_ab" ∧
      (objGet ([] : JsObj) "user_id" = none →
        countKey (objSet [] "user_id" "web_1_ab") "user_id" = 1) ∧
      patchedFetch envW { rJson with body := .strObj (objSet [] "user_id" "web_1_ab") } =
        .ok ({ rJson with body := .strObj (objSet [] "user_id" "web_1_ab") }, envW, false)) ∧
    (patchedFetch envW rForm =
        .ok ({ rForm with body := .formData (formAppend [("message", "hi")] "user_id" "web_1_ab") },
          envW, false) ∧
      countKey (formAppend [("message", "hi")] "user_id" "web_1_ab") "user_id" = 1 ∧
      patchedFetch envW
          { rForm with body := .formData (formAppend [("message", "hi")] "user_id" "web_1_ab") } =
        .ok ({ rForm with body := .formData (formAppend [("message", "hi")] "user_id" "web_1_ab") },
          envW, false)) :=
  ⟨C5_injection_at_most_once_idempotent.1 envW rFormDup [("message", "hi"), ("user_id", "u9")]
      (by decide) rfl rfl (by decide),
   C5_injection_at_most_once_idempotent.2.1 envW envW rJson [] "web_1_ab"
      (by decide) rfl (by decide) rfl (by decide) (by decide),
   C5_injection_at_most_once_idempotent.2.2 envW envW rForm [("message", "hi")] "web_1_ab"
      (by decide) rfl rfl (by decide) (by decide)⟩

/-- A non-chat JSON POST request (feedback endpoint). -/
def rFeedback : Request :=
  { path := "/api/feedback", query := [], method := "POST",
    headers := [("Content-Type", "application/json")], body := .strObj [] }

theorem strIncludes_chat_ne_empty (u : String)
    (h : strIncludes u "/api/chat" = true) : u ≠ "" := by
  intro hu
  subst hu
  exact absurd h (by decide)

/-- C3, counterexample: the claim says both interceptors leave every
non-POST request's body unchanged.  The patched `XMLHttpRequest.prototype.send`
checks only the captured URL and never the method, so a GET to the chat
history endpoint with a `FormData` body gets `user_id` appended. -/
theorem C3_counterexample :
    xhrSend envT (xhrOpen ⟨none, none⟩ "GET" "/api/chat/history") (.formData []) =
      .ok (.formData [("user_id", "tg_555")], envT) ∧
    (.formData [] : BodyData) ≠ .formData [("user_id", "tg_555")] :=
  ⟨by decide, by decide⟩

/-- C3 (amended): the fetch interceptor modifies only chat-family POSTs —
any other request is forwarded untouched; the raw-transport interceptor
captures the URL in `open` and appends identity to multipart bodies sent to
a chat-family URL regardless of the request method, leaving non-chat URLs
unchanged. -/
theorem C3_injection_scope :
    (∀ (env : Env) (r : Request),
      (strIncludes r.url "/api/chat" = true ∧ r.method = "POST" → False) →
      patchedFetch env r = .ok (r, env, false)) ∧
    (∀ (env env' : Env) (st : XhrState) (method u : String) (fd : FormEntries)
        (uid : String),
      strIncludes u "/api/chat" = true → formHas fd "user_id" = false →
      getUserId env = .ok (uid, env') →
      xhrSend env (xhrOpen st method u) (.formData fd) =
        .ok (.formData (formAppend fd "user_id" uid), env')) ∧
    (∀ (env : Env) (st : XhrState) (method u : String) (body : BodyData),
      strIncludes u "/api/chat" = false →
      xhrSend env (xhrOpen st method u) body = .ok (body, env)) := by
  refine ⟨?_, ?_, ?_⟩
  · intro env r h
    unfold patchedFetch
    cases hi : strIncludes r.url "/api/chat" with
    | false => simp [hi]
    | true =>
      have hm : (r.method == "POST") = false :=
        beq_eq_false_iff_ne.mpr (fun hm => h ⟨hi, hm⟩)
      simp [hi, hm]
  · intro env env' st method u fd uid hurl hhas hg
    have htr : truthyStr u = true := by
      simp only [truthyStr]
      exact bne_iff_ne.mpr (strIncludes_chat_ne_empty u hurl)
    simp [xhrSend, xhrOpen, htr, hurl, hhas, hg]
  · intro env st method u body hurl
    simp [xhrSend, xhrOpen, hurl]

/-- C3 witness: the fetch interceptor leaves a feedback POST untouched, the
XHR interceptor injects into a chat-URL GET, and leaves a non-chat XHR
untouched. -/
theorem C3_witness :
    (patchedFetch envW rFeedback = .ok (rFeedback, envW, false)) ∧
    (xhrSend envT (xhrOpen ⟨none, none⟩ "GET" "/api/chat/history") (.formData [("message", "m")]) =
      .ok (.formData (formAppend [("message", "m")] "user_id" "tg_555"), envT)) ∧
    (xhrSend envW (xhrOpen ⟨none, none⟩ "POST" "/api/feedback") (.formData []) =
      .ok (.formData [], envW)) :=
  ⟨C3_injection_scope.1 envW rFeedback (by decide),
   C3_injection_scope.2.1 envT envT ⟨none, none⟩ "GET" "/api/chat/history"
      [("message", "m")] "tg_555" (by decide) (by decide) (by decide),
   C3_injection_scope.2.2 envW ⟨none, none⟩ "POST" "/api/feedback" (.formData [])
      (by decide)⟩

theorem retryFrom_succ_ok {α : Type} (f : Nat → Except String α) (d attempt m : Nat)
    (a : α) (hf : f attempt = .ok a) :
    retryFrom f d attempt (m + 1) = { result := some (.ok a), waits := [], calls := 1 } := by
  simp only [retryFrom, hf]

theorem retryFrom_succ_err_last {α : Type} (f : Nat → Except String α) (d attempt : Nat)
    (e : String) (hf : f attempt = .error e) :
    retryFrom f d attempt 1 = { result := some (.error e), waits := [], calls := 1 } := by
  simp only [retryFrom, hf]
  simp

theorem retryFrom_succ_err {α : Type} (f : Nat → Except String α) (d attempt m : Nat)
    (e : String) (hf : f attempt = .error e) (hm : m ≠ 0) :
    retryFrom f d attempt (m + 1) =
      { result := (retryFrom f d (attempt + 1) m).result,
        waits := d * 2 ^ (attempt - 1) :: (retryFrom f d (attempt + 1) m).waits,
        calls := (retryFrom f d (attempt + 1) m).calls + 1 } := by
  simp only [retryFrom, hf, hm, if_false]

theorem retryFrom_calls_le {α : Type} (f : Nat → Except String α) (d : Nat) :
    ∀ (fuel attempt : Nat), (retryFrom f d attempt fuel).calls ≤ fuel := by
  intro fuel
  induction fuel with
  | zero => intro attempt; simp [retryFrom]
  | succ m ih =>
    intro attempt
    cases hf : f attempt with
    | ok a =>
      rw [retryFrom_succ_ok f d attempt m a hf]
      dsimp only
      omega
    | error e =>
      by_cases hm : m = 0
      · subst hm
        rw [retryFrom_succ_err_last f d attempt e hf]
      · rw [retryFrom_succ_err f d attempt m e hf hm]
        have hrec := ih (attempt + 1)
        dsimp only
        omega

theorem waits_shift (d attempt m' : Nat) (ha : 1 ≤ attempt) :
    (List.range (m' + 1)).map (fun i => d * 2 ^ (attempt - 1 + i)) =
      d * 2 ^ (attempt - 1) :: (List.range m').map (fun i => d * 2 ^ (attempt + i)) := by
  rw [List.range_succ_eq_map, List.map_cons, List.map_map]
  refine congrArg₂ List.cons (by norm_num) ?_
  apply List.map_congr_left
  intro i _
  simp only [Function.comp_apply, Nat.succ_eq_add_one]
  have he : attempt - 1 + (i + 1) = attempt + i := by omega
  rw [he]

theorem retryFrom_all_fail {α : Type} (f : Nat → Except String α) (d : Nat) :
    ∀ (fuel attempt : Nat), 1 ≤ attempt → 1 ≤ fuel →
      (∀ j, attempt ≤ j → j < attempt + fuel → (f j).isOk = false) →
      retryFrom f d attempt fuel =
        { result := some (f (attempt + fuel - 1)),
          waits := (List.range (fuel - 1)).map (fun i => d * 2 ^ (attempt - 1 + i)),
          calls := fuel } := by
  intro fuel
  induction fuel with
  | zero => intro attempt _ h2 _; omega
  | succ m ih =>
    intro attempt ha _ hfail
    have hferr : (f attempt).isOk = false := hfail attempt le_rfl (by omega)
    rcases hf : f attempt with e | a
    · by_cases hm : m = 0
      · subst hm
        rw [retryFrom_succ_err_last f d attempt e hf]
        rw [show attempt + 1 - 1 = attempt from by omega, hf]
        simp
      · rw [retryFrom_succ_err f d attempt m e hf hm]
        rw [ih (attempt + 1) (by omega) (by omega)
          (fun j hj1 hj2 => hfail j (by omega) (by omega))]
        obtain ⟨m', rfl⟩ : ∃ m', m = m' + 1 := ⟨m - 1, by omega⟩
        dsimp only
        rw [show attempt + 1 + (m' + 1) - 1 = attempt + (m' + 1 + 1) - 1 from by omega]
        rw [show m' + 1 + 1 - 1 = m' + 1 from by omega]
        rw [waits_shift d attempt m' ha]
        rw [show m' + 1 - 1 = m' from by omega]
        rw [show attempt + 1 - 1 = attempt from by omega]
    · rw [hf] at hferr
      simp [Except.isOk, Except.toBool] at hferr

theorem retryFrom_first_success {α : Type} (f : Nat → Except String α) (d : Nat) :
    ∀ (fuel attempt k : Nat) (a : α), 1 ≤ attempt → attempt ≤ k → k < attempt + fuel →
      (∀ j, attempt ≤ j → j < k → (f j).isOk = false) → f k = .ok a →
      retryFrom f d attempt fuel =
        { result := some (.ok a),
          waits := (List.range (k - attempt)).map (fun i => d * 2 ^ (attempt - 1 + i)),
          calls := k - attempt + 1 } := by
  intro fuel
  induction fuel with
  | zero => intro attempt k a _ _ hk _ _; omega
  | succ m ih =>
    intro attempt k a ha hak hk hfail hok
    by_cases hek : attempt = k
    · subst hek
      rw [retryFrom_succ_ok f d attempt m a hok]
      rw [Nat.sub_self]
      simp
    · have hlt : attempt < k := lt_of_le_of_ne hak hek
      have hferr : (f attempt).isOk = false := hfail attempt le_rfl hlt
      rcases hf : f attempt with e | b
      · have hm : m ≠ 0 := by omega
        rw [retryFrom_succ_err f d attempt m e hf hm]
        rw [ih (attempt + 1) k a (by omega) (by omega) (by omega)
          (fun j hj1 hj2 => hfail j (by omega) hj2) hok]
        dsimp only
        obtain ⟨t, ht⟩ : ∃ t, k - attempt = t + 1 := ⟨k - attempt - 1, by omega⟩
        rw [ht, show k - (attempt + 1) = t from by omega]
        rw [waits_shift d attempt t ha]
        rw [show attempt + 1 - 1 = attempt from by omega]
      · rw [hf] at hferr
        simp [Except.isOk, Except.toBool] at hferr

/-- C7: `ApiUtils.retryRequest` calls the request function at most
`maxRetries` times; when every attempt fails it waits
`delay, 2·delay, 4·delay, …` between attempts (exponential backoff starting
at the base delay, doubling per attempt, no wait after the last attempt),
performs exactly `maxRetries` calls and rethrows the final attempt's
failure; when attempt `k ≤ maxRetries` is the first success, the successful
result is returned unchanged after `k` calls and the first `k-1` backoff
waits. -/
theorem C7_retryRequest_backoff {α : Type} (f : Nat → Except String α)
    (n d : Nat) :
    (retryRequest f n d).calls ≤ n ∧
    (1 ≤ n → (∀ j, 1 ≤ j → j ≤ n → (f j).isOk = false) →
      retryRequest f n d =
        { result := some (f n),
          waits := (List.range (n - 1)).map (fun i => d * 2 ^ i),
          calls := n }) ∧
    (∀ k a, 1 ≤ k → k ≤ n → (∀ j, 1 ≤ j → j < k → (f j).isOk = false) →
      f k = .ok a →
      retryRequest f n d =
        { result := some (.ok a),
          waits := (List.range (k - 1)).map (fun i => d * 2 ^ i),
          calls := k }) := by
  refine ⟨retryFrom_calls_le f d n 1, ?_, ?_⟩
  · intro hn hfail
    rw [retryRequest, retryFrom_all_fail f d n 1 le_rfl hn
      (fun j hj1 hj2 => hfail j hj1 (by omega))]
    have hmap : (List.range (n - 1)).map (fun i => d * 2 ^ (1 - 1 + i)) =
        (List.range (n - 1)).map (fun i => d * 2 ^ i) := by
      apply List.map_congr_left
      intro i _
      norm_num
    rw [show 1 + n - 1 = n from by omega, hmap]
  · intro k a hk1 hkn hfail hok
    rw [retryRequest, retryFrom_first_success f d n 1 k a le_rfl hk1 (by omega)
      (fun j hj1 hj2 => hfail j hj1 hj2) hok]
    have hmap : (List.range (k - 1)).map (fun i => d * 2 ^ (1 - 1 + i)) =
        (List.range (k - 1)).map (fun i => d * 2 ^ i) := by
      apply List.map_congr_left
      intro i _
      norm_num
    rw [hmap, show k - 1 + 1 = k from by omega]

/-- C7 witness: with base delay 1000 and three attempts, a function failing
every time yields waits `[1000, 2000]`, three calls and the third failure;
one succeeding at attempt 2 is returned unchanged after one wait. -/
theorem C7_witness :
    ((retryRequest (fun k => (Except.error ("e" ++ toString k) : Except String Nat)) 3 1000).calls ≤ 3) ∧
    (retryRequest (fun k => (Except.error ("e" ++ toString k) : Except String Nat)) 3 1000 =
      { result := some (Except.error "e3"),
        waits := (List.range 2).map (fun i => 1000 * 2 ^ i), calls := 3 }) ∧
    (retryRequest (fun k => if k = 2 then (Except.ok 42 : Except String Nat) else .error "x") 3 1000 =
      { result := some (.ok 42),
        waits := (List.range 1).map (fun i => 1000 * 2 ^ i), calls := 2 }) :=
  ⟨(C7_retryRequest_backoff (fun k => (Except.error ("e" ++ toString k) : Except String Nat)) 3 1000).1,
   by
    have h := (C7_retryRequest_backoff
      (fun k => (Except.error ("e" ++ toString k) : Except String Nat)) 3 1000).2.1
      (by norm_num) (fun j hj1 hj2 => by simp [Except.isOk, Except.toBool])
    simpa using h,
   by
    have h := (C7_retryRequest_backoff
      (fun k => if k = 2 then (Except.ok 42 : Except String Nat) else .error "x") 3 1000).2.2
      2 42 (by norm_num) (by norm_num)
      (fun j hj1 hj2 => by
        interval_cases j
        · simp [Except.isOk, Except.toBool]) rfl
    simpa using h⟩

theorem runResolutions_tg (ok : Bool) :
    ∀ (cs : List CallInput) (stored : Option String) (i : Nat) (c : CallInput)
      (id : String),
      cs.get? i = some c → c.tgUser = some id →
      (runResolutions ok cs stored).get? i = some (.ok ("tg_" ++ id)) := by
  intro cs
  induction cs with
  | nil => intro stored i c id h _; simp at h
  | cons c0 cs ih =>
    intro stored i c id hget htg
    cases i with
    | zero =>
      simp only [List.get?] at hget
      injection hget with hc
      subst hc
      simp [runResolutions, getUserId, callEnv, htg]
    | succ n =>
      simp only [List.get?] at hget
      cases hg : getUserId (callEnv c0 stored ok) with
      | ok p =>
        simp only [runResolutions, hg, List.get?]
        exact ih _ n c id hget htg
      | error e =>
        simp only [runResolutions, hg, List.get?]
        exact ih _ n c id hget htg

/-- C4: Telegram precedence and freshness of the identity resolution.
(1) Re-check, no caching: whichever storage state a sequence of `getUserId`
calls has reached, a call at whose instant the Telegram user `id` is visible
resolves to `tg_<id>` — even if earlier calls returned web identities.
(2) Precedence invariant: from any call index `i` onwards at which the
Telegram identity is observed and stays available (the host exposes it
monotonically within a session), every subsequent resolution returns a
`tg_`-prefixed identity, never a web-generated one.
(3) `ChatManager.updateUserId` preserves a Telegram-sourced current id: it
never downgrades `tg_<id>` to a web identity (outside Telegram a new web
session id is created only when no id is set). -/
theorem C4_telegram_precedence :
    (∀ (ok : Bool) (cs : List CallInput) (stored : Option String) (i : Nat)
        (c : CallInput) (id : String),
      cs.get? i = some c → c.tgUser = some id →
      (runResolutions ok cs stored).get? i = some (.ok ("tg_" ++ id))) ∧
    (∀ (ok : Bool) (cs : List CallInput) (stored : Option String) (i j : Nat),
      i ≤ j → j < cs.length →
      (∀ k ck, i ≤ k → cs.get? k = some ck → ck.tgUser.isSome = true) →
      ∃ id, (runResolutions ok cs stored).get? j = some (.ok ("tg_" ++ id))) ∧
    (∀ (env : Env) (st : ChatState) (id : String),
      st.currentUserId = some ("tg_" ++ id) →
      ∃ idNew, (updateUserId env st).currentUserId = some ("tg_" ++ idNew)) := by
  refine ⟨runResolutions_tg, ?_, ?_⟩
  · intro ok cs stored i j hij hj hmono
    have hget : cs.get? j = some (cs.get ⟨j, hj⟩) := List.get?_eq_get hj
    have hsome : (cs.get ⟨j, hj⟩).tgUser.isSome = true :=
      hmono j (cs.get ⟨j, hj⟩) hij hget
    obtain ⟨id, hid⟩ := Option.isSome_iff_exists.mp hsome
    exact ⟨id, runResolutions_tg ok cs stored j (cs.get ⟨j, hj⟩) id hget hid⟩
  · intro env st id hcur
    unfold updateUserId
    cases hitg : env.inTelegram with
    | true =>
      cases htg : env.tgUser with
      | some id2 =>
        simp only [if_true]
        by_cases hne : (st.currentUserId != some ("tg_" ++ id2)) = true
        · rw [if_pos hne]
          exact ⟨id2, rfl⟩
        · rw [if_neg hne]
          exact ⟨id, hcur⟩
      | none =>
        simp only [if_true]
        exact ⟨id, hcur⟩
    | false =>
      simp only [Bool.false_eq_true, if_false]
      have htr : truthyOpt st.currentUserId = true := by
        rw [hcur]
        simp only [truthyOpt, truthyStr]
        exact bne_iff_ne.mpr (string_append_ne_empty "tg_" id (by decide))
      rw [htr]
      simp only [Bool.not_true, Bool.false_eq_true, if_false]
      exact ⟨id, hcur⟩

/-- C4 witness: a one-call trace with Telegram id `9` resolves to `tg_9` in
every conjunct, and `updateUserId` keeps a `tg_`-prefixed id outside
Telegram. -/
theorem C4_witness :
    ((([⟨some "9", 0, "a"⟩] : List CallInput).get? 0 = some ⟨some "9", 0, "a"⟩) ∧
      (runResolutions true [⟨some "9", 0, "a"⟩] none).get? 0 =
        some (.ok ("tg_" ++ "9"))) ∧
    (∃ id, (runResolutions true [⟨some "9", 0, "a"⟩] none).get? 0 =
      some (.ok ("tg_" ++ id))) ∧
    (∃ idNew, (updateUserId envW ⟨some ("tg_" ++ "5"), true⟩).currentUserId =
      some ("tg_" ++ idNew)) :=
  ⟨⟨rfl, C4_telegram_precedence.1 true [⟨some "9", 0, "a"⟩] none 0 ⟨some "9", 0, "a"⟩
      "9" rfl rfl⟩,
   C4_telegram_precedence.2.1 true [⟨some "9", 0, "a"⟩] none 0 0 le_rfl (by decide)
     (fun k ck _ hk => by
       cases k with
       | zero =>
         injection hk with h
         rw [← h]
         rfl
       | succ m => simp at hk),
   C4_telegram_precedence.2.2 envW ⟨some ("tg_" ++ "5"), true⟩ "5" rfl⟩

theorem atMostOnce_ok_iff (r : Request) (env : Env) (b : Bool) :
    atMostOncePerChannel (.ok (r, env, b)) = true ↔
      headerIdCount r ≤ 1 ∧ queryIdCount r ≤ 1 ∧
      bodyUserCount r.body ≤ 1 ∧ bodyTgCount r.body ≤ 1 := by
  simp [atMostOncePerChannel, Bool.and_eq_true, decide_eq_true_eq, and_assoc]

theorem patchedFetch_preserves (env : Env) (r : Request)
    (hh : headerIdCount r ≤ 1) (hq : queryIdCount r ≤ 1)
    (hu : bodyUserCount r.body = 0) (ht : bodyTgCount r.body ≤ 1) :
    atMostOncePerChannel (patchedFetch env r) = true := by
  by_cases hcond : (strIncludes r.url "/api/chat" && r.method == "POST") = true
  · cases hb : r.body with
    | formData fd =>
      rw [hb] at hu ht
      simp only [bodyUserCount] at hu
      simp only [bodyTgCount] at ht
      have hhas : formHas fd "user_id" = false :=
        (formHas_eq_false_iff fd "user_id").mpr ((countKey_zero_iff fd "user_id").mp hu)
      cases hg : getUserId env with
      | error e =>
        simp only [patchedFetch, hcond, if_true, hb, hhas, Bool.not_false, hg]
        rfl
      | ok p =>
        obtain ⟨uid, env'⟩ := p
        simp only [patchedFetch, hcond, if_true, hb, hhas, Bool.not_false, hg]
        rw [atMostOnce_ok_iff]
        refine ⟨hh, hq, ?_, ?_⟩
        · simp only [bodyUserCount, formAppend]
          rw [countKey_append, hu]
          simp [countKey, List.filter]
        · simp only [bodyTgCount, formAppend]
          rw [countKey_append]
          have h0 : countKey [("user_id", uid)] "telegram_user_id" = 0 := by
            simp [countKey, List.filter]
          omega
    | strObj o =>
      rw [hb] at hu ht
      simp only [bodyUserCount] at hu
      simp only [bodyTgCount] at ht
      by_cases hct : (headerGet r.headers "Content-Type" == some "application/json") = true
      · have hgetnone : objGet o "user_id" = none :=
          (objGet_eq_none_iff o "user_id").mpr ((countKey_zero_iff o "user_id").mp hu)
        have hnt : objTruthy o "user_id" = false := by
          rw [objTruthy, hgetnone]
          rfl
        cases hg : getUserId env with
        | error e =>
          simp only [patchedFetch, hcond, if_true, hb, hct, hnt, Bool.not_false, hg]
          rfl
        | ok p =>
          obtain ⟨uid, env'⟩ := p
          simp only [patchedFetch, hcond, if_true, hb, hct, hnt, Bool.not_false, hg]
          rw [atMostOnce_ok_iff]
          refine ⟨hh, hq, ?_, ?_⟩
          · simp only [bodyUserCount]
            rw [countKey_objSet_absent o "user_id" uid hgetnone]
          · simp only [bodyTgCount]
            rw [objSet_absent o "user_id" uid hgetnone, countKey_append]
            have h0 : countKey [("user_id", uid)] "telegram_user_id" = 0 := by
              simp [countKey, List.filter]
            omega
      · have hct' : (headerGet r.headers "Content-Type" == some "application/json") = false :=
          Bool.eq_false_iff.mpr hct
        simp only [patchedFetch, hcond, if_true, hb, hct', Bool.false_eq_true, if_false]
        rw [atMostOnce_ok_iff]
        refine ⟨hh, hq, ?_, ?_⟩
        · rw [hb]
          simp only [bodyUserCount]
          omega
        · rw [hb]
          simp only [bodyTgCount]
          omega
    | strMalformed raw =>
      by_cases hct : (headerGet r.headers "Content-Type" == some "application/json") = true
      · simp only [patchedFetch, hcond, if_true, hb, hct]
        rw [atMostOnce_ok_iff]
        exact ⟨hh, hq, by rw [hb]; simp [bodyUserCount], by rw [hb]; simp [bodyTgCount]⟩
      · have hct' : (headerGet r.headers "Content-Type" == some "application/json") = false :=
          Bool.eq_false_iff.mpr hct
        simp only [patchedFetch, hcond, if_true, hb, hct', Bool.false_eq_true, if_false]
        rw [atMostOnce_ok_iff]
        exact ⟨hh, hq, by rw [hb]; simp [bodyUserCount], by rw [hb]; simp [bodyTgCount]⟩
    | empty =>
      by_cases hct : (headerGet r.headers "Content-Type" == some "application/json") = true
      · simp only [patchedFetch, hcond, if_true, hb, hct]
        rw [atMostOnce_ok_iff]
        exact ⟨hh, hq, by rw [hb]; simp [bodyUserCount], by rw [hb]; simp [bodyTgCount]⟩
      · have hct' : (headerGet r.headers "Content-Type" == some "application/json") = false :=
          Bool.eq_false_iff.mpr hct
        simp only [patchedFetch, hcond, if_true, hb, hct', Bool.false_eq_true, if_false]
        rw [atMostOnce_ok_iff]
        exact ⟨hh, hq, by rw [hb]; simp [bodyUserCount], by rw [hb]; simp [bodyTgCount]⟩
  · have hcond' : (strIncludes r.url "/api/chat" && r.method == "POST") = false :=
      Bool.eq_false_iff.mpr hcond
    simp only [patchedFetch, hcond', Bool.false_eq_true, if_false]
    rw [atMostOnce_ok_iff]
    exact ⟨hh, hq, by omega, ht⟩



theorem getUserHeaders_count (env : Env) :
    countKey (getUserHeaders env) "X-Telegram-User-Id" ≤ 1 := by
  unfold getUserHeaders
  cases getTelegramUserId env <;> simp [countKey, List.filter]

theorem makeRequest_headerIdCount (env : Env) (p : String)
    (q : List (String × String)) (m : String) (b : BodyData) :
    headerIdCount (makeRequest env p q m b) ≤ 1 := by
  have h1 := getUserHeaders_count env
  have h0 : countKey [("Content-Type", "application/json")] "X-Telegram-User-Id" = 0 := by
    simp [countKey, List.filter]
  cases b <;>
    simp only [makeRequest, headerIdCount] <;>
    first
      | exact h1
      | (rw [countKey_append]; omega)

theorem makeRequest_queryIdCount (env : Env) (p : String)
    (q : List (String × String)) (m : String) (b : BodyData) :
    queryIdCount (makeRequest env p q m b) = countKey q "telegram_user_id" := by
  cases b <;> simp only [makeRequest, queryIdCount]

theorem sendFd_counts (msg : String) (img : Option String) (k : String)
    (h1 : ("message" == k) = false) (h2 : ("image" == k) = false) :
    countKey ((if truthyStr msg then [("message", msg)] else []) ++
      (match img with | some i => [("image", i)] | none => [])) k = 0 := by
  cases img <;> cases htr : truthyStr msg <;>
    simp [htr, countKey, List.filter, h1, h2]

theorem send_at_most_once (env : Env) (msg : String) (img : Option String) :
    atMostOncePerChannel (sendMessageRequest env msg img) = true := by
  unfold sendMessageRequest apiPostFormData
  cases htg : getTelegramUserId env with
  | some id =>
    simp only [htg]
    apply patchedFetch_preserves
    · exact makeRequest_headerIdCount env _ _ _ _
    · rw [makeRequest_queryIdCount]
      simp [countKey]
    · show bodyUserCount (.formData (formAppend _ "telegram_user_id" id)) = 0
      simp only [bodyUserCount, formAppend]
      rw [countKey_append, sendFd_counts msg img "user_id" (by decide) (by decide)]
      simp [countKey, List.filter]
    · show bodyTgCount (.formData (formAppend _ "telegram_user_id" id)) ≤ 1
      simp only [bodyTgCount, formAppend]
      rw [countKey_append, sendFd_counts msg img "telegram_user_id" (by decide) (by decide)]
      simp [countKey, List.filter]
  | none =>
    simp only [htg]
    apply patchedFetch_preserves
    · exact makeRequest_headerIdCount env _ _ _ _
    · rw [makeRequest_queryIdCount]
      simp [countKey]
    · show bodyUserCount (.formData _) = 0
      simp only [bodyUserCount]
      exact sendFd_counts msg img "user_id" (by decide) (by decide)
    · show bodyTgCount (.formData _) ≤ 1
      simp only [bodyTgCount]
      rw [sendFd_counts msg img "telegram_user_id" (by decide) (by decide)]
      omega

theorem clear_at_most_once (env : Env) :
    atMostOncePerChannel (clearHistoryRequest env) = true := by
  unfold clearHistoryRequest apiPost
  cases htg : getTelegramUserId env with
  | some id =>
    simp only [htg]
    have hset : objSet ([] : JsObj) "telegram_user_id" id = [("telegram_user_id", id)] := by
      simp [objSet]
    apply patchedFetch_preserves
    · exact makeRequest_headerIdCount env _ _ _ _
    · rw [makeRequest_queryIdCount]
      simp [countKey]
    · show bodyUserCount (.strObj (objSet [] "telegram_user_id" id)) = 0
      rw [hset]
      simp [bodyUserCount, countKey, List.filter]
    · show bodyTgCount (.strObj (objSet [] "telegram_user_id" id)) ≤ 1
      rw [hset]
      simp [bodyTgCount, countKey, List.filter]
  | none =>
    simp only [htg]
    apply patchedFetch_preserves
    · exact makeRequest_headerIdCount env _ _ _ _
    · rw [makeRequest_queryIdCount]
      simp [countKey]
    · show bodyUserCount (.strObj []) = 0
      simp [bodyUserCount, countKey]
    · show bodyTgCount (.strObj []) ≤ 1
      simp [bodyTgCount, countKey]

theorem history_at_most_once (env : Env) (limit : Nat) :
    atMostOncePerChannel (historyRequest env limit) = true := by
  unfold historyRequest apiGet
  cases htg : getTelegramUserId env with
  | some id =>
    simp only [htg]
    have hset : objSet [("limit", toString limit)] "telegram_user_id" id =
        [("limit", toString limit), ("telegram_user_id", id)] := by
      simp [objSet]
    apply patchedFetch_preserves
    · exact makeRequest_headerIdCount env _ _ _ _
    · rw [makeRequest_queryIdCount, hset]
      simp [countKey, List.filter]
    · show bodyUserCount .empty = 0
      rfl
    · show bodyTgCount .empty ≤ 1
      simp [bodyTgCount]
  | none =>
    simp only [htg]
    apply patchedFetch_preserves
    · exact makeRequest_headerIdCount env _ _ _ _
    · rw [makeRequest_queryIdCount]
      simp [countKey, List.filter]
    · show bodyUserCount .empty = 0
      rfl
    · show bodyTgCount .empty ≤ 1
      simp [bodyTgCount]

/-- C1, counterexample: the claim requires exactly one identity value per
chat-related request, with no duplication across the header and body/query
channels.  In a Telegram session the clear request carries the identity in
the header AND twice in the body (`telegram_user_id` from the API client
plus the injected `user_id`) — three values; and in a web session the
history GET carries no identity at all. -/
theorem C1_counterexample :
    channelsOf (clearHistoryRequest envT) = some (1, 0, 2) ∧
    channelsOf (historyRequest envW 10) = some (0, 0, 0) :=
  ⟨by decide, by decide⟩

/-- C1 (amended): every chat-related request (multipart send, JSON clear,
history GET) attaches identity at most once per channel — at most one
`X-Telegram-User-Id` header, at most one `telegram_user_id` query parameter,
at most one `user_id` and at most one `telegram_user_id` body field.  When a
Telegram identity is available it is deliberately duplicated across the
header and body/query channels, and the web-session history GET carries no
identity; the total is therefore not always exactly one. -/
theorem C1_at_most_once_per_channel (env : Env) (msg : String)
    (img : Option String) (limit : Nat) :
    atMostOncePerChannel (sendMessageRequest env msg img) = true ∧
    atMostOncePerChannel (clearHistoryRequest env) = true ∧
    atMostOncePerChannel (historyRequest env limit) = true :=
  ⟨send_at_most_once env msg img, clear_at_most_once env,
   history_at_most_once env limit⟩

end KMedia
